import Mathlib

set_option maxRecDepth 20000

/-!
Verification of the aggregation routines of `src/analysis/statistical_analysis.py`
(class `StatisticalAnalysis` of the flood-wave-detector repository).

The module is a stateless aggregation layer over external collaborators
(graph builder, velocity / branch / node-color analyzers).  Those collaborators
are modelled as function parameters keyed by the same date strings the source
passes to them; everything the module computes itself (windows, loops, counts,
statistical reductions, filters, the output tables) is embedded faithfully:

* machine floats are modelled by `ℚ` (the inputs and reductions here are exact:
  counts, sums, quotients); `np.std` is represented by its square (the
  population variance `npVar`), since the embedding stays inside `ℚ` and
  `std = Real.sqrt var` is zero / minimal / maximal exactly when `var` is;
* Python date-string comparison is the lexicographic order on code points,
  embedded as `strLtB` / `strLeB`;
* Python's substring test `a in b` is embedded as `containsStr b a`;
* operations that can raise (`np.min` of an empty array, division by zero,
  out-of-bounds `numpy` assignment, `pd.DataFrame` shape mismatch) return
  `Option`, with `none` for the raising run.
-/

/-- Lexicographic comparison of char lists by code point, as Python compares
strings. -/
def charListLt : List Char → List Char → Bool
  | [], [] => false
  | [], _ :: _ => true
  | _ :: _, [] => false
  | a :: as, b :: bs => if a < b then true else if b < a then false else charListLt as bs

/-- Python's `a < b` on strings. -/
def strLtB (a b : String) : Bool := charListLt a.data b.data

/-- Python's `a <= b` on strings (total order: `a <= b` iff `not (b < a)`). -/
def strLeB (a b : String) : Bool := !(strLtB b a)

/-- Auxiliary: does `needle` occur as a contiguous sublist of the haystack? -/
def strContainsAux (needle : List Char) : List Char → Bool
  | [] => needle.isEmpty
  | c :: rest => needle.isPrefixOf (c :: rest) || strContainsAux needle rest

/-- Python's substring test `needle in hay`. -/
def containsStr (hay needle : String) : Bool := strContainsAux needle.data hay.data

/-- Model of `np.mean` over exact rationals (`np.mean` of an empty array is
NaN in the source; the claims only constrain nonempty inputs). -/
def npMean (l : List ℚ) : ℚ := l.sum / l.length

/-- Model of `np.min`; `np.min` of an empty array raises in the source, and
every caller in this file guards the empty case through `Option`. -/
def npMin (l : List ℚ) : ℚ :=
  match l with
  | [] => 0
  | x :: xs => xs.foldl min x

/-- Model of `np.max`; see `npMin` for the empty case. -/
def npMax (l : List ℚ) : ℚ :=
  match l with
  | [] => 0
  | x :: xs => xs.foldl max x

/-- Model of `np.median`: sort, take the middle element (odd length) or the
mean of the two middle elements (even length). -/
def npMedian (l : List ℚ) : ℚ :=
  let s := List.insertionSort (fun a b => a ≤ b) l
  if s.length % 2 = 1 then s.getD (s.length / 2) 0
  else (s.getD (s.length / 2 - 1) 0 + s.getD (s.length / 2) 0) / 2

/-- Square of `np.std` (the population variance, `ddof = 0`): mean of squared
deviations from the mean.  `np.std` itself is `Real.sqrt` of this value. -/
def npVar (l : List ℚ) : ℚ := npMean (l.map (fun x => (x - npMean l) ^ 2))

/-- A node of the flood-wave graph, as the source sees it inside
`get_flood_waves_yearly`: a `(gauge, date)` pair; `node[1]` is the date. -/
abbrev FWNode := String × String

/-- A branch of the branch decomposition: an ordered list of nodes. -/
abbrev Branch := List FWNode

/-- The widened window of `get_flood_waves_yearly` (source lines 267-275):
`[year-01-01, (year+1)-02-01]` for 1876, `[(year-1)-11-30, year-12-31]` for
2019, `[(year-1)-11-30, (year+1)-02-01]` otherwise. -/
def flood_wave_window (year : ℕ) : String × String :=
  if year = 1876 then (toString year ++ "-01-01", toString (year + 1) ++ "-02-01")
  else if year = 2019 then (toString (year - 1) ++ "-11-30", toString year ++ "-12-31")
  else (toString (year - 1) ++ "-11-30", toString (year + 1) ++ "-02-01")

/-- The branch filter of `get_flood_waves_yearly` (source lines 284-289): keep
a branch iff no node date contains the previous year's label as a substring
and not every node date contains the following year's label. -/
def keep_branch (year : ℕ) (branch : Branch) : Bool :=
  let node_dates := branch.map (fun node => node.2)
  !(node_dates.any (fun node_date => containsStr node_date (toString (year - 1)))) &&
    !(node_dates.all (fun node_date => containsStr node_date (toString (year + 1))))

/-- Model of `get_flood_waves_yearly` (source lines 258-291).  The graph
construction and the branch decomposition are external collaborators
(`FloodWaveHandler.create_directed_graph`, `GraphAnalysis.get_branching`);
their composition is the parameter `branchesOf`, keyed by the window dates the
source passes to them. -/
def get_flood_waves_yearly (branchesOf : String → String → List Branch) (year : ℕ) :
    List Branch :=
  (branchesOf (flood_wave_window year).1 (flood_wave_window year).2).filter (keep_branch year)

/-- Model of `yearly_mean_moving_average` (source lines 19-46): for each
ending year `i` in `range(1876 + length, 2020)` build the graph over
`[(i - length)-01-01, i-12-31]`, compute all edge velocities (the collaborator
composition is the parameter `velOf`, keyed by those dates) and append their
`np.mean`. -/
def yearly_mean_moving_average (velOf : String → String → List ℚ) (length : ℕ) : List ℚ :=
  (List.range' (1876 + length) (2020 - (1876 + length))).map
    (fun i => npMean (velOf (toString (i - length) ++ "-01-01") (toString i ++ "-12-31")))

/-- File-handle events of `get_slopes_by_vertex_pairs` (source lines 157-216):
the bare `open` of `vertex_pairs.json`, a close of that handle, and the
opening / closing of the spreadsheet by `with pd.ExcelWriter`. -/
inductive SlopesEvent
  | openJson
  | closeJson
  | openXlsx
  | closeXlsx
  deriving DecidableEq

/-- How far one invocation of `get_slopes_by_vertex_pairs` gets before
(possibly) raising: `json.load` may fail, a statistical reduction inside the
loop may raise (e.g. `np.min` of an empty pool), a `to_excel` call inside the
`with` block may fail, or the run completes. -/
inductive SlopesRun
  | jsonLoadError
  | statsError
  | sheetWriteError
  | complete

/-- The file-handle event trace of `get_slopes_by_vertex_pairs` for each kind
of run, read off the source: line 166 executes `f = open(...)` with no `with`
and no `f.close()` anywhere, so `closeJson` never occurs; lines 213-216 wrap
the spreadsheet in `with pd.ExcelWriter(...)`, whose exit closes the handle on
both the normal and the exceptional path. -/
def slopesIOTrace : SlopesRun → List SlopesEvent
  | .jsonLoadError => [.openJson]
  | .statsError => [.openJson]
  | .sheetWriteError => [.openJson, .openXlsx, .closeXlsx]
  | .complete => [.openJson, .openXlsx, .closeXlsx]

/-- The period loop shared by `get_slopes_by_vertex_pairs` (lines 169, 179-181)
and `red_ratio` (lines 231-234): `years = np.arange(1876, 2020, period)`
iterated with an in-loop `break` once `year + period - 1 > 2019`.  Embedded
with explicit fuel (145 exceeds any possible iteration count: at most 144
starts plus the final break check); for `period = 0` the source raises inside
`np.arange`, and every theorem below assumes `1 ≤ period`. -/
def periodStartsGo (period : ℕ) : ℕ → ℕ → List ℕ
  | 0, _ => []
  | fuel + 1, year =>
    if year + period - 1 > 2019 then []
    else year :: periodStartsGo period fuel (year + period)

/-- The start years of the complete `period`-year periods from 1876. -/
def periodStarts (period : ℕ) : List ℕ := periodStartsGo period 145 1876

/-- Start date string of a period (and of a year window): `{year}-01-01`. -/
def periodStartDate (year : ℕ) : String := toString year ++ "-01-01"

/-- End date string of a `period`-year period: `{year + period - 1}-12-31`. -/
def periodEndDate (year period : ℕ) : String := toString (year + period - 1) ++ "-12-31"

/-- Row label used by `get_slopes_by_vertex_pairs` and `red_ratio`:
`{start_date}_{end_date}`. -/
def periodLabel (year period : ℕ) : String :=
  periodStartDate year ++ "_" ++ periodEndDate year period

/-- The slope field of a `vertex_pairs.json` record `[value, slope]`: a float
or a list of floats. -/
inductive SlopeVal
  | scalar (q : ℚ)
  | vals (qs : List ℚ)
  deriving DecidableEq

/-- The flattening comprehension of source lines 194-195:
`sublist if isinstance(sublist, list) else [sublist]`. -/
def flattenSlope : SlopeVal → List ℚ
  | .scalar q => [q]
  | .vals qs => qs

/-- One vertex pair's mapping (date → `[value, slope]`), as an ordered
association list (Python dicts preserve insertion order and have unique
keys). -/
abbrev SlopeRecords := List (String × ℚ × SlopeVal)

/-- The skip test of source line 187: `all(j < start_date or j > end_date for
j in current_dates)` over the record's date keys. -/
def allDatesOutside (records : SlopeRecords) (year period : ℕ) : Bool :=
  (records.map (fun r => r.1)).all
    (fun j => strLtB j (periodStartDate year) || strLtB (periodEndDate year period) j)

/-- The pooled, flattened slopes of the in-range dates of a period (source
lines 191-195): filter `start_date <= x <= end_date`, take each record's slope
field, flatten. -/
def periodSlopePool (records : SlopeRecords) (year period : ℕ) : List ℚ :=
  (records.filter (fun r =>
      strLeB (periodStartDate year) r.1 && strLeB r.1 (periodEndDate year period))).flatMap
    (fun r => flattenSlope r.2.2)

/-- The five statistics appended per emitted row (source lines 197-201), with
`np.std` represented by its square `npVar`. -/
structure SlopeStats where
  smin : ℚ
  smax : ℚ
  mean : ℚ
  median : ℚ
  varSq : ℚ
  deriving DecidableEq

/-- Statistics of one pooled slope list. -/
def npStats (l : List ℚ) : SlopeStats :=
  ⟨npMin l, npMax l, npMean l, npMedian l, npVar l⟩

/-- The per-period body of the vertex-pair loop of `get_slopes_by_vertex_pairs`
(source lines 179-201), over the list of period start years: a period whose
dates all fall outside is skipped (`continue`, no row); otherwise one row is
appended, unless the pooled slope list is empty, in which case `np.min`
raises and the whole invocation aborts (`none`). -/
def slopeRowsGo (records : SlopeRecords) (period : ℕ) : List ℕ → Option (List (String × SlopeStats))
  | [] => some []
  | year :: rest =>
    if allDatesOutside records year period then slopeRowsGo records period rest
    else
      let pool := periodSlopePool records year period
      if pool.isEmpty then none
      else
        match slopeRowsGo records period rest with
        | none => none
        | some rows => some ((periodLabel year period, npStats pool) :: rows)

/-- The rows of the sheet `get_slopes_by_vertex_pairs` produces for one vertex
pair (the file read, the outer loop over pairs, and the spreadsheet write are
modelled by `slopesIOTrace`; the JSON contents are the parameter
`records`). -/
def get_slopes_rows (records : SlopeRecords) (period : ℕ) : Option (List (String × SlopeStats)) :=
  slopeRowsGo records period (periodStarts period)

/-- The concatenation `all_colors` of `red_ratio` (source lines 246-248) and
`node_colors` of `get_statistics` (source lines 86-88): the per-gauge color
lists in gauge order.  The color classification
(`AnalysisHandler.get_node_colors_in_given_period`) is the external parameter
`colorsOf`, keyed by gauge id and the window's date strings. -/
def allColors (gauges : List String) (colorsOf : String → String → String → List String)
    (startDate endDate : String) : List String :=
  gauges.foldl (fun acc gauge => acc ++ colorsOf gauge startDate endDate) []

/-- The period loop of `red_ratio` (source lines 231-252): one row
`reds / len(all_colors)` per complete period; a period with an empty
classification raises `ZeroDivisionError`, aborting the invocation
(`none`). -/
def redRatioGo (gauges : List String) (colorsOf : String → String → String → List String)
    (period : ℕ) : List ℕ → Option (List (String × ℚ))
  | [] => some []
  | year :: rest =>
    let colors := allColors gauges colorsOf (periodStartDate year) (periodEndDate year period)
    if colors.length = 0 then none
    else
      match redRatioGo gauges colorsOf period rest with
      | none => none
      | some rows =>
        some ((periodLabel year period, (colors.count "red" : ℚ) / colors.length) :: rows)

/-- Model of `red_ratio` (source lines 218-256): the returned one-column table
as a list of `(row label, ratio)` pairs. -/
def red_ratio_rows (gauges : List String) (colorsOf : String → String → String → List String)
    (period : ℕ) : Option (List (String × ℚ)) :=
  redRatioGo gauges colorsOf period (periodStarts period)

/-- The years `1876..2019` iterated by `get_statistics` and
`low_high_by_gauge_yearly` (`range(1876, 2020)`). -/
def statYears : List ℕ := List.range' 1876 144

/-- End date string of a single-year window: `{year}-12-31`. -/
def yearEndDate (year : ℕ) : String := toString year ++ "-12-31"

/-- The edge velocities of the yearly graph (graph construction and
`GraphAnalysis.calculate_all_velocities` are external; `velOf` is their
composition, keyed by the window dates). -/
def yearVelocities (velOf : String → String → List ℚ) (year : ℕ) : List ℚ :=
  velOf (periodStartDate year) (yearEndDate year)

/-- Per-year concatenated node colors of `get_statistics` (source lines
86-88). -/
def yearNodeColors (gauges : List String) (colorsOf : String → String → String → List String)
    (year : ℕ) : List String :=
  allColors gauges colorsOf (periodStartDate year) (yearEndDate year)

/-- The `Kisviz (db)` column data of `get_statistics`: yearly counts of
`"yellow"` nodes (source line 90). -/
def lowCounts (gauges : List String) (colorsOf : String → String → String → List String) :
    List ℕ :=
  statYears.map (fun year => (yearNodeColors gauges colorsOf year).count "yellow")

/-- The `Nagyviz (db)` column data of `get_statistics`: yearly counts of
`"red"` nodes (source line 91). -/
def highCounts (gauges : List String) (colorsOf : String → String → String → List String) :
    List ℕ :=
  statYears.map (fun year => (yearNodeColors gauges colorsOf year).count "red")

/-- Total classified nodes per year, for comparison with `lowCounts` and
`highCounts`. -/
def totalNodeCounts (gauges : List String)
    (colorsOf : String → String → String → List String) : List ℕ :=
  statYears.map (fun year => (yearNodeColors gauges colorsOf year).length)

/-- The nine column headers of `get_statistics` (source lines 106-114), in
insertion order. -/
def statColumnNames : List String :=
  ["Datum (ev)", "Arhullam (db)", "Kisviz (db)", "Nagyviz (db)",
   "Min. sebesseg (km/h)", "Max. sebesseg (km/h)", "Atlagsebesseg (km/h)",
   "Median sebesseg (km/h)", "Sebessegek szorasa"]

/-- The column data of `get_statistics` (source lines 59-116), one list per
header, each accumulated over `range(1876, 2020)`.  The weakly-connected
component count of the yearly graph is the external parameter `compCountOf`
(composition of the graph builder and `nx.weakly_connected_components`); the
last column stores the square of `np.std` (see `npVar`). -/
def statTable (gauges : List String) (compCountOf : String → String → ℕ)
    (colorsOf : String → String → String → List String)
    (velOf : String → String → List ℚ) : List (String × List ℚ) :=
  [("Datum (ev)", statYears.map (Nat.cast : ℕ → ℚ)),
   ("Arhullam (db)",
     statYears.map (fun year =>
       (Nat.cast (compCountOf (periodStartDate year) (yearEndDate year)) : ℚ))),
   ("Kisviz (db)", (lowCounts gauges colorsOf).map (Nat.cast : ℕ → ℚ)),
   ("Nagyviz (db)", (highCounts gauges colorsOf).map (Nat.cast : ℕ → ℚ)),
   ("Min. sebesseg (km/h)", statYears.map (fun year => npMin (yearVelocities velOf year))),
   ("Max. sebesseg (km/h)", statYears.map (fun year => npMax (yearVelocities velOf year))),
   ("Atlagsebesseg (km/h)", statYears.map (fun year => npMean (yearVelocities velOf year))),
   ("Median sebesseg (km/h)", statYears.map (fun year => npMedian (yearVelocities velOf year))),
   ("Sebessegek szorasa", statYears.map (fun year => npVar (yearVelocities velOf year)))]

/-- Model of `get_statistics` (source lines 48-116): `np.min` of an empty
velocity array raises, aborting the invocation before any table is built, so
the result is `none` when some year has no edge velocities and the assembled
table otherwise. -/
def get_statistics (gauges : List String) (compCountOf : String → String → ℕ)
    (colorsOf : String → String → String → List String)
    (velOf : String → String → List ℚ) : Option (List (String × List ℚ)) :=
  if statYears.all (fun year => !(yearVelocities velOf year).isEmpty) then
    some (statTable gauges compCountOf colorsOf velOf)
  else none

/-- A single `numpy` cell assignment `m[r, c] = v` with its bounds check
(`IndexError` → `none`). -/
def matSet (m : List (List ℕ)) (r c v : ℕ) : Option (List (List ℕ)) :=
  if r < m.length ∧ c < (m.getD r []).length then
    some (m.set r ((m.getD r []).set c v))
  else none

/-- The inner gauge loop of `low_high_by_gauge_yearly` (source lines 139-146):
`k` starts at 1 and the writes go to columns `2k-2` and `2k-1`; here `k0 = k - 1`
so the columns are `2*k0` and `2*k0 + 1`. -/
def lowHighFillGauges (colorsOf : String → String → String → List String) (yearIdx : ℕ) :
    ℕ → List String → List (List ℕ) → Option (List (List ℕ))
  | _, [], m => some m
  | k0, gauge :: rest, m =>
    let colors := colorsOf gauge (periodStartDate (1876 + yearIdx)) (yearEndDate (1876 + yearIdx))
    match matSet m yearIdx (2 * k0) (colors.count "yellow") with
    | none => none
    | some m1 =>
      match matSet m1 yearIdx (2 * k0 + 1) (colors.count "red") with
      | none => none
      | some m2 => lowHighFillGauges colorsOf yearIdx (k0 + 1) rest m2

/-- The year loop of `low_high_by_gauge_yearly` (source lines 129-148), over
the year indices `i - 1876`. -/
def lowHighFillYears (gauges : List String)
    (colorsOf : String → String → String → List String) :
    List ℕ → List (List ℕ) → Option (List (List ℕ))
  | [], m => some m
  | yearIdx :: rest, m =>
    match lowHighFillGauges colorsOf yearIdx 0 gauges m with
    | none => none
    | some m1 => lowHighFillYears gauges colorsOf rest m1

/-- The DataFrame `low_high_by_gauge_yearly` returns: the filled matrix, the
row index (years) and the column labels. -/
structure LowHighFrame where
  mat : List (List ℕ)
  rowIndex : List ℕ
  colNames : List String
  deriving DecidableEq

/-- The column labels of `low_high_by_gauge_yearly` (source lines 150-153):
`{gauge} (low)`, `{gauge} (high)` per gauge in input order. -/
def lowHighColNames (gauges : List String) : List String :=
  gauges.flatMap (fun gauge => [gauge ++ " (low)", gauge ++ " (high)"])

/-- Model of `low_high_by_gauge_yearly` (source lines 118-155): the matrix is
preallocated as `np.zeros((144, 28))` (28 is hard-coded), filled by explicit
`(row, col)` assignment, and passed to `pd.DataFrame(final_matrix,
index=years, columns=columns)`, which raises unless the number of column
labels (`2 * len(gauges)`) equals the matrix width 28. -/
def low_high_by_gauge_yearly (gauges : List String)
    (colorsOf : String → String → String → List String) : Option LowHighFrame :=
  match lowHighFillYears gauges colorsOf (List.range 144)
      (List.replicate 144 (List.replicate 28 0)) with
  | none => none
  | some m =>
    if (lowHighColNames gauges).length = 28 then
      some ⟨m, List.range' 1876 144, lowHighColNames gauges⟩
    else none

/-- The row a year ends up with when the fill succeeds: per gauge in order,
the `"yellow"` count then the `"red"` count. -/
def lowHighYearRow (gauges : List String)
    (colorsOf : String → String → String → List String) (yearIdx : ℕ) : List ℕ :=
  gauges.flatMap (fun gauge =>
    [(colorsOf gauge (periodStartDate (1876 + yearIdx)) (yearEndDate (1876 + yearIdx))).count
       "yellow",
     (colorsOf gauge (periodStartDate (1876 + yearIdx)) (yearEndDate (1876 + yearIdx))).count
       "red"])

/-- Sequential overwrite of a row: write the values `vs` at consecutive
positions starting at `c`.  Closed form used to describe the effect of
`lowHighFillGauges` on the written row. -/
def overwriteFrom (row : List ℕ) (c : ℕ) : List ℕ → List ℕ
  | [] => row
  | v :: vs => overwriteFrom (row.set c v) (c + 1) vs

/-- Sample velocity collaborator: two edges with velocities 2 and 4 in every
window. -/
def velOfSample : String → String → List ℚ := fun _ _ => [2, 4]

/-- Sample velocity collaborator: a single edge with velocity 1 in every
window. -/
def velOneSample : String → String → List ℚ := fun _ _ => [1]

/-- Sample component-count collaborator. -/
def compCountSample : String → String → ℕ := fun _ _ => 0

/-- Sample gauge list with one gauge. -/
def gaugesSample : List String := ["a"]

/-- Sample color classification: in every window, each gauge has ten nodes of
which three are red and four are yellow. -/
def colorsSample : String → String → String → List String :=
  fun _ _ _ => ["red", "red", "red", "yellow", "yellow", "yellow", "yellow", "blue", "blue",
    "blue"]

/-- Sample color classification that classifies no nodes at all. -/
def colorsEmpty : String → String → String → List String := fun _ _ _ => []

/-- Sample gauge list with fifteen gauges (one more than the hard-coded
28-column grid accommodates). -/
def gauges15 : List String :=
  ["g01", "g02", "g03", "g04", "g05", "g06", "g07", "g08", "g09", "g10", "g11", "g12",
   "g13", "g14", "g15"]

/-- Sample gauge list with exactly fourteen gauges. -/
def gauges14 : List String :=
  ["g01", "g02", "g03", "g04", "g05", "g06", "g07", "g08", "g09", "g10", "g11", "g12",
   "g13", "g14"]

/-- Sample branch collaborator returning one single-node branch dated inside
the target year. -/
def branchesSample : String → String → List Branch := fun _ _ => [[("g", "2000-05-05")]]

/-- Closed form of the fueled period loop: with enough fuel, the starts from
`year` are `year, year + period, ...` for as long as the period still fits
before 2020. -/
theorem periodStartsGo_eq (period : ℕ) (hp : 1 ≤ period) :
    ∀ fuel year, (2020 - year) / period ≤ fuel →
      periodStartsGo period fuel year =
        (List.range ((2020 - year) / period)).map (fun k => year + k * period) := by
  intro fuel
  induction fuel with
  | zero =>
    intro year h
    have hd : (2020 - year) / period = 0 := Nat.le_zero.mp h
    simp [periodStartsGo, hd]
  | succ fuel ih =>
    intro year h
    by_cases hb : year + period - 1 > 2019
    · have hlt : 2020 - year < period := by omega
      have hd : (2020 - year) / period = 0 := Nat.div_eq_of_lt hlt
      simp [periodStartsGo, hb, hd]
    · have hle : year + period ≤ 2020 := by omega
      have hsplit : 2020 - year = (2020 - (year + period)) + period := by omega
      have hd : (2020 - year) / period = (2020 - (year + period)) / period + 1 := by
        rw [hsplit, Nat.add_div_right _ (by omega : 0 < period)]
      have hih := ih (year + period) (by omega)
      simp only [periodStartsGo, if_neg hb, hih, hd, List.range_succ_eq_map,
        List.map_cons, List.map_map]
      congr 1
      · omega
      · apply List.map_congr_left
        intro k _
        simp [Function.comp]
        ring

/-- There are exactly `144 / period` complete `period`-year periods, starting
at `1876 + k * period`. -/
theorem periodStarts_eq (period : ℕ) (hp : 1 ≤ period) :
    periodStarts period = (List.range (144 / period)).map (fun k => 1876 + k * period) := by
  have hb : (2020 - 1876) / period ≤ 145 :=
    le_trans (Nat.div_le_self _ _) (by norm_num)
  simpa [periodStarts] using periodStartsGo_eq period hp 145 1876 hb

/-- The slope-row loop over any list of period starts: when every period with
an in-range date has a nonempty pooled slope list, the loop emits exactly one
row per period with data, in order. -/
theorem slopeRowsGo_eq (records : SlopeRecords) (period : ℕ) :
    ∀ ys : List ℕ,
      (∀ y ∈ ys, allDatesOutside records y period = false →
        (periodSlopePool records y period).isEmpty = false) →
      slopeRowsGo records period ys =
        some ((ys.filter (fun y => !allDatesOutside records y period)).map
          (fun y => (periodLabel y period, npStats (periodSlopePool records y period)))) := by
  intro ys
  induction ys with
  | nil => intro _; simp [slopeRowsGo]
  | cons y rest ih =>
    intro hpool
    by_cases hout : allDatesOutside records y period = true
    · simp only [slopeRowsGo, if_pos hout, List.filter_cons, hout]
      simp only [Bool.not_true]
      rw [ih (fun z hz => hpool z (List.mem_cons_of_mem _ hz))]
      simp
    · have hout' : allDatesOutside records y period = false := by
        revert hout; cases allDatesOutside records y period <;> simp
      have hne := hpool y (List.mem_cons_self _ _) hout'
      simp only [slopeRowsGo, hout', if_false, Bool.false_eq_true, hne,
        ih (fun z hz => hpool z (List.mem_cons_of_mem _ hz)), List.filter_cons,
        Bool.not_false, if_true, List.map_cons]

/-- The red-ratio loop over any list of period starts, when every period
classifies at least one node: one `reds / total` row per period. -/
theorem redRatioGo_some (gauges : List String)
    (colorsOf : String → String → String → List String) (period : ℕ) :
    ∀ ys : List ℕ,
      (∀ y ∈ ys,
        (allColors gauges colorsOf (periodStartDate y) (periodEndDate y period)).length ≠ 0) →
      redRatioGo gauges colorsOf period ys =
        some (ys.map (fun y =>
          (periodLabel y period,
           ((allColors gauges colorsOf (periodStartDate y)
               (periodEndDate y period)).count "red" : ℚ) /
             (allColors gauges colorsOf (periodStartDate y)
               (periodEndDate y period)).length))) := by
  intro ys
  induction ys with
  | nil => intro _; simp [redRatioGo]
  | cons y rest ih =>
    intro hne
    have h1 := hne y (List.mem_cons_self _ _)
    simp only [redRatioGo, if_neg h1, ih (fun z hz => hne z (List.mem_cons_of_mem _ hz)),
      List.map_cons]

/-- The red-ratio loop aborts (division by zero) as soon as some period
classifies no node at all. -/
theorem redRatioGo_none (gauges : List String)
    (colorsOf : String → String → String → List String) (period : ℕ) :
    ∀ ys : List ℕ,
      (∃ y ∈ ys,
        (allColors gauges colorsOf (periodStartDate y) (periodEndDate y period)).length = 0) →
      redRatioGo gauges colorsOf period ys = none := by
  intro ys
  induction ys with
  | nil => rintro ⟨y, hy, _⟩; cases hy
  | cons y rest ih =>
    rintro ⟨z, hz, hzero⟩
    rcases List.mem_cons.mp hz with rfl | hzrest
    · simp [redRatioGo, hzero]
    · by_cases h1 :
        (allColors gauges colorsOf (periodStartDate y) (periodEndDate y period)).length = 0
      · simp [redRatioGo, h1]
      · simp only [redRatioGo, if_neg h1, ih ⟨z, hzrest, hzero⟩]

/-- Whatever rows the red-ratio loop emits are labelled by the period labels,
one per iterated period, in order. -/
theorem redRatioGo_labels (gauges : List String)
    (colorsOf : String → String → String → List String) (period : ℕ) :
    ∀ (ys : List ℕ) (rows : List (String × ℚ)),
      redRatioGo gauges colorsOf period ys = some rows →
      rows.map Prod.fst = ys.map (fun y => periodLabel y period) := by
  intro ys
  induction ys with
  | nil =>
    intro rows h
    simp only [redRatioGo, Option.some.injEq] at h
    simp [← h]
  | cons y rest ih =>
    intro rows h
    simp only [redRatioGo] at h
    by_cases h1 :
        (allColors gauges colorsOf (periodStartDate y) (periodEndDate y period)).length = 0
    · simp [h1] at h
    · rw [if_neg h1] at h
      cases hrec : redRatioGo gauges colorsOf period rest with
      | none => rw [hrec] at h; cases h
      | some rows' =>
        rw [hrec] at h
        simp only [Option.some.injEq] at h
        subst h
        simp [ih rows' hrec]

theorem getD_set_self {α : Type} :
    ∀ (l : List α) (i : ℕ) (a d : α), i < l.length → (l.set i a).getD i d = a
  | [], i, _, _, h => absurd h (by simp)
  | _ :: _, 0, _, _, _ => rfl
  | _ :: xs, i + 1, a, d, h => getD_set_self xs i a d (by simpa using h)

theorem getD_set_ne {α : Type} :
    ∀ (l : List α) (i j : ℕ) (a d : α), i ≠ j → (l.set i a).getD j d = l.getD j d
  | [], _, _, _, _, _ => rfl
  | _ :: _, 0, 0, _, _, h => absurd rfl h
  | _ :: _, 0, _ + 1, _, _, _ => rfl
  | _ :: _, _ + 1, 0, _, _, _ => rfl
  | _ :: xs, i + 1, j + 1, a, d, h =>
    getD_set_ne xs i j a d (fun he => h (by omega))

theorem set_getD_self {α : Type} :
    ∀ (l : List α) (i : ℕ) (d : α), i < l.length → l.set i (l.getD i d) = l
  | [], i, _, h => absurd h (by simp)
  | _ :: _, 0, _, _ => rfl
  | x :: xs, i + 1, d, h => by
    simp only [List.set_cons_succ, List.getD_cons_succ]
    rw [set_getD_self xs i d (by simpa using h)]

theorem getD_replicate_self {α : Type} :
    ∀ (n i : ℕ) (a d : α), i < n → (List.replicate n a).getD i d = a
  | 0, i, _, _, h => absurd h (by simp)
  | n + 1, 0, _, _, _ => rfl
  | n + 1, i + 1, a, d, h => getD_replicate_self n i a d (by omega)

theorem take_set_succ {α : Type} :
    ∀ (l : List α) (c : ℕ) (v : α), c < l.length →
      (l.set c v).take (c + 1) = l.take c ++ [v]
  | [], c, _, h => absurd h (by simp)
  | _ :: _, 0, _, _ => rfl
  | x :: xs, c + 1, v, h => by
    have ih := take_set_succ xs c v (by simpa using h)
    simp only [List.set_cons_succ, List.take_succ_cons, ih, List.cons_append]

theorem drop_set_of_lt {α : Type} :
    ∀ (l : List α) (i j : ℕ) (a : α), i < j → (l.set i a).drop j = l.drop j
  | [], _, _, _, _ => rfl
  | _ :: _, 0, 0, _, h => absurd h (by omega)
  | _ :: xs, 0, j + 1, a, _ => by simp [List.drop_succ_cons]
  | _ :: xs, i + 1, 0, a, h => absurd h (by omega)
  | _ :: xs, i + 1, j + 1, a, h => by
    simp only [List.set_cons_succ, List.drop_succ_cons]
    exact drop_set_of_lt xs i j a (by omega)

theorem overwriteFrom_eq :
    ∀ (vs row : List ℕ) (c : ℕ), c + vs.length ≤ row.length →
      overwriteFrom row c vs = row.take c ++ vs ++ row.drop (c + vs.length)
  | [], row, c, _ => by simp [overwriteFrom, List.take_append_drop]
  | v :: vs, row, c, h => by
    have hc : c < row.length := by
      have := h
      simp only [List.length_cons] at this
      omega
    have ih := overwriteFrom_eq vs (row.set c v) (c + 1)
      (by simp only [List.length_set]; simp only [List.length_cons] at h; omega)
    simp only [overwriteFrom, ih, take_set_succ row c v hc,
      drop_set_of_lt row c (c + 1 + vs.length) v (by omega)]
    have harith : c + 1 + vs.length = c + (v :: vs).length := by
      simp only [List.length_cons]; omega
    rw [harith]
    simp [List.append_assoc]

theorem matSet_eq (m : List (List ℕ)) (r c v : ℕ) (hr : r < m.length)
    (hc : c < (m.getD r []).length) :
    matSet m r c v = some (m.set r ((m.getD r []).set c v)) := by
  have h : r < m.length ∧ c < (m.getD r []).length := ⟨hr, hc⟩
  unfold matSet
  rw [if_pos h]

theorem lowHighYearRow_cons (g : String) (gs : List String)
    (colorsOf : String → String → String → List String) (yearIdx : ℕ) :
    lowHighYearRow (g :: gs) colorsOf yearIdx =
      (colorsOf g (periodStartDate (1876 + yearIdx)) (yearEndDate (1876 + yearIdx))).count
          "yellow" ::
        (colorsOf g (periodStartDate (1876 + yearIdx)) (yearEndDate (1876 + yearIdx))).count
          "red" ::
          lowHighYearRow gs colorsOf yearIdx := by
  simp [lowHighYearRow]

theorem lowHighYearRow_length (colorsOf : String → String → String → List String)
    (yearIdx : ℕ) :
    ∀ gauges : List String, (lowHighYearRow gauges colorsOf yearIdx).length = 2 * gauges.length
  | [] => rfl
  | g :: gs => by
    rw [lowHighYearRow_cons]
    simp only [List.length_cons, lowHighYearRow_length colorsOf yearIdx gs]
    omega

theorem lowHighFillGauges_eq (colorsOf : String → String → String → List String) (yearIdx : ℕ) :
    ∀ (gauges : List String) (k0 : ℕ) (m : List (List ℕ)),
      yearIdx < m.length → (m.getD yearIdx []).length = 28 → k0 + gauges.length ≤ 14 →
      lowHighFillGauges colorsOf yearIdx k0 gauges m =
        some (m.set yearIdx
          (overwriteFrom (m.getD yearIdx []) (2 * k0) (lowHighYearRow gauges colorsOf yearIdx)))
  | [], k0, m, hy, _, _ => by
    simp only [lowHighFillGauges, lowHighYearRow, List.flatMap_nil, overwriteFrom]
    rw [set_getD_self m yearIdx [] hy]
  | g :: gs, k0, m, hy, hrow, hk => by
    have hc1 : 2 * k0 < (m.getD yearIdx []).length := by
      simp only [List.length_cons] at hk; omega
    have hc2 : 2 * k0 + 1 < (m.getD yearIdx []).length := by
      simp only [List.length_cons] at hk; omega
    set vY := (colorsOf g (periodStartDate (1876 + yearIdx))
      (yearEndDate (1876 + yearIdx))).count "yellow" with hvY
    set vR := (colorsOf g (periodStartDate (1876 + yearIdx))
      (yearEndDate (1876 + yearIdx))).count "red" with hvR
    set row := m.getD yearIdx [] with hrowdef
    have h1 := matSet_eq m yearIdx (2 * k0) vY hy hc1
    have hm1len : yearIdx < (m.set yearIdx (row.set (2 * k0) vY)).length := by
      simpa using hy
    have hm1row : (m.set yearIdx (row.set (2 * k0) vY)).getD yearIdx [] =
        row.set (2 * k0) vY := getD_set_self m yearIdx _ [] hy
    have h2 := matSet_eq (m.set yearIdx (row.set (2 * k0) vY)) yearIdx (2 * k0 + 1) vR
      hm1len (by rw [hm1row]; simpa using hc2)
    rw [hm1row, List.set_set] at h2
    have ih := lowHighFillGauges_eq colorsOf yearIdx gs (k0 + 1)
      (m.set yearIdx ((row.set (2 * k0) vY).set (2 * k0 + 1) vR))
      (by simpa using hy)
      (by rw [getD_set_self m yearIdx _ [] hy]; simpa using hrow)
      (by simp only [List.length_cons] at hk; omega)
    rw [getD_set_self m yearIdx _ [] hy, List.set_set] at ih
    show (match matSet m yearIdx (2 * k0) vY with
      | none => none
      | some m1 =>
        match matSet m1 yearIdx (2 * k0 + 1) vR with
        | none => none
        | some m2 => lowHighFillGauges colorsOf yearIdx (k0 + 1) gs m2) = _
    rw [h1]
    simp only [h2, ih, lowHighYearRow_cons, overwriteFrom]
    have harith : 2 * (k0 + 1) = 2 * k0 + 1 + 1 := by omega
    rw [harith]
    rfl

theorem lowHighFillYears_eq (gauges : List String)
    (colorsOf : String → String → String → List String) (hg : gauges.length = 14) :
    ∀ (ys : List ℕ) (m : List (List ℕ)),
      (∀ i ∈ ys, i < m.length ∧ m.getD i [] = List.replicate 28 0) → ys.Nodup →
      ∃ m', lowHighFillYears gauges colorsOf ys m = some m' ∧
        m'.length = m.length ∧
        (∀ i ∈ ys, m'.getD i [] = lowHighYearRow gauges colorsOf i) ∧
        (∀ j, j ∉ ys → m'.getD j [] = m.getD j []) := by
  intro ys
  induction ys with
  | nil =>
    intro m _ _
    exact ⟨m, rfl, rfl, fun i hi => absurd hi (List.not_mem_nil i), fun j _ => rfl⟩
  | cons i rest ih =>
    intro m hys hnd
    obtain ⟨hiL, hirow⟩ := hys i (List.mem_cons_self _ _)
    have hfill := lowHighFillGauges_eq colorsOf i gauges 0 m hiL
      (by rw [hirow]; simp) (by omega)
    have hrowlen : (lowHighYearRow gauges colorsOf i).length = 28 := by
      rw [lowHighYearRow_length, hg]
    have hoverwrite : overwriteFrom (m.getD i []) (2 * 0) (lowHighYearRow gauges colorsOf i) =
        lowHighYearRow gauges colorsOf i := by
      rw [hirow]
      rw [overwriteFrom_eq _ _ _ (by rw [hrowlen]; simp)]
      rw [show (2 : ℕ) * 0 = 0 from rfl]
      simp only [List.take_zero, List.nil_append, Nat.zero_add]
      rw [show (28 : ℕ) = (List.replicate 28 (0 : ℕ)).length from by simp, ← hrowlen]
      simp only [hrowlen, List.length_replicate]
      rw [show List.drop 28 (List.replicate 28 (0 : ℕ)) =
        [] from by rw [← List.length_replicate 28 (0 : ℕ)]; exact List.drop_length _]
      simp
    rw [hoverwrite] at hfill
    have hm1 : ∀ i' ∈ rest,
        i' < (m.set i (lowHighYearRow gauges colorsOf i)).length ∧
        (m.set i (lowHighYearRow gauges colorsOf i)).getD i' [] = List.replicate 28 0 := by
      intro i' hi'
      obtain ⟨h1, h2⟩ := hys i' (List.mem_cons_of_mem _ hi')
      have hne : i ≠ i' := by
        rintro rfl
        exact (List.nodup_cons.mp hnd).1 hi'
      exact ⟨by simpa using h1, by rw [getD_set_ne m i i' _ [] hne]; exact h2⟩
    obtain ⟨m', hm'eq, hm'len, hm'rows, hm'out⟩ :=
      ih (m.set i (lowHighYearRow gauges colorsOf i)) hm1 (List.nodup_cons.mp hnd).2
    refine ⟨m', ?_, ?_, ?_, ?_⟩
    · show (match lowHighFillGauges colorsOf i 0 gauges m with
        | none => none
        | some m1 => lowHighFillYears gauges colorsOf rest m1) = some m'
      rw [hfill]
      exact hm'eq
    · rw [hm'len]; simp
    · intro i' hi'
      rcases List.mem_cons.mp hi' with rfl | hi'rest
      · have hnotin : i' ∉ rest := (List.nodup_cons.mp hnd).1
        rw [hm'out i' hnotin, getD_set_self m i' _ [] hiL]
      · exact hm'rows i' hi'rest
    · intro j hj
      have hj1 : j ∉ rest := fun h => hj (List.mem_cons_of_mem _ h)
      have hj2 : i ≠ j := fun h => hj (h ▸ List.mem_cons_self _ _)
      rw [hm'out j hj1, getD_set_ne m i j _ [] hj2]

theorem lowHighColNames_length :
    ∀ gauges : List String, (lowHighColNames gauges).length = 2 * gauges.length
  | [] => rfl
  | g :: gs => by
    have ih := lowHighColNames_length gs
    simp only [lowHighColNames, List.flatMap_cons, List.length_append, List.length_cons,
      List.length_nil] at ih ⊢
    omega

theorem lowHighYearRow_getD (colorsOf : String → String → String → List String) (yearIdx : ℕ) :
    ∀ (gauges : List String) (k : ℕ), k < gauges.length →
      (lowHighYearRow gauges colorsOf yearIdx).getD (2 * k) 0 =
        (colorsOf (gauges.getD k "") (periodStartDate (1876 + yearIdx))
          (yearEndDate (1876 + yearIdx))).count "yellow" ∧
      (lowHighYearRow gauges colorsOf yearIdx).getD (2 * k + 1) 0 =
        (colorsOf (gauges.getD k "") (periodStartDate (1876 + yearIdx))
          (yearEndDate (1876 + yearIdx))).count "red"
  | [], k, h => absurd h (by simp)
  | g :: gs, 0, _ => by
    rw [lowHighYearRow_cons]
    exact ⟨rfl, rfl⟩
  | g :: gs, k + 1, h => by
    rw [lowHighYearRow_cons]
    have ih := lowHighYearRow_getD colorsOf yearIdx gs k (by simpa using h)
    have h2 : 2 * (k + 1) = 2 * k + 1 + 1 := by omega
    rw [h2]
    simpa only [List.getD_cons_succ] using ih

/-- A list cannot contain more yellow-or-red entries than entries. -/
theorem count_yellow_red_le_length :
    ∀ l : List String, l.count "yellow" + l.count "red" ≤ l.length
  | [] => by simp
  | a :: t => by
    have ih := count_yellow_red_le_length t
    simp only [List.count_cons, beq_iff_eq, List.length_cons]
    by_cases h1 : a = "yellow"
    · have h2 : ¬ a = "red" := by rw [h1]; decide
      simp only [if_pos h1, if_neg h2]
      omega
    · by_cases h2 : a = "red"
      · simp only [if_pos h2, if_neg h1]
        omega
      · simp only [if_neg h1, if_neg h2]
        omega

/-- C1 (amended): `get_flood_waves_yearly` retains exactly those branches of
the widened-window branch decomposition with no node date containing the
previous year's label and with some node date not containing the following
year's label.  In particular a branch whose every node date contains the
following year's label is excluded, and a branch with any node date from the
previous year's label is excluded even when it also has a node date in the
target year — the claim's rule that a branch with a node date in the target
year is always retained does not hold (see the counterexample). -/
theorem c1_flood_wave_filter :
    ∀ (branchesOf : String → String → List Branch) (year : ℕ) (b : Branch),
      b ∈ get_flood_waves_yearly branchesOf year ↔
        b ∈ branchesOf (flood_wave_window year).1 (flood_wave_window year).2 ∧
        (∀ d ∈ b.map (fun node => node.2), containsStr d (toString (year - 1)) = false) ∧
        (∃ d ∈ b.map (fun node => node.2), containsStr d (toString (year + 1)) = false) := by
  intro branchesOf year b
  simp [get_flood_waves_yearly, keep_branch, List.mem_filter, List.any_eq_true,
    List.all_eq_true, Bool.not_eq_true']

/-- C1 witness: a branch dated only inside the target year is retained. -/
theorem c1_flood_wave_filter_witness :
    [("g", "2000-05-05")] ∈ get_flood_waves_yearly branchesSample 2000 :=
  (c1_flood_wave_filter branchesSample 2000 [("g", "2000-05-05")]).mpr
    ⟨by decide, by decide, ⟨"2000-05-05", by decide, by decide⟩⟩

/-- C1 counterexample: for year 2000, a branch with node dates
`1999-12-01` and `2000-01-05` has a node date in the target year, so the
claim says it is retained, yet the source excludes it because one node date
contains the previous year's label. -/
theorem c1_counterexample :
    ((([("g", "1999-12-01"), ("g", "2000-01-05")] : Branch).map
        (fun node => node.2)).any (fun d => containsStr d (toString 2000)) = true) ∧
    get_flood_waves_yearly (fun _ _ => [[("g", "1999-12-01"), ("g", "2000-01-05")]]) 2000 =
      [] := by
  constructor
  · decide
  · rfl

/-- C2: on every kind of run of `get_slopes_by_vertex_pairs` — `json.load`
failure, a failure inside the statistics loop, a failure inside the
spreadsheet `with` block, or completion — the JSON read handle opened at line
166 is never closed (the source has no `close` and no `with` for it), while
the spreadsheet handle is closed exactly when it was opened (the `with
pd.ExcelWriter` block releases it on both exits).  The first equation refutes
the claim that both handles are released on every path; the read handle leaks
on all of them. -/
theorem c2_slopes_file_handles :
    ∀ r : SlopesRun,
      (slopesIOTrace r).contains SlopesEvent.closeJson = false ∧
      (slopesIOTrace r).contains SlopesEvent.openXlsx =
        (slopesIOTrace r).contains SlopesEvent.closeXlsx := by
  intro r
  cases r <;> exact ⟨rfl, rfl⟩

/-- C2 witness: even the completed run never closes the JSON read handle,
although it does close the spreadsheet handle it opened. -/
theorem c2_slopes_file_handles_witness :
    (slopesIOTrace SlopesRun.complete).contains SlopesEvent.closeJson = false ∧
    (slopesIOTrace SlopesRun.complete).contains SlopesEvent.openXlsx =
      (slopesIOTrace SlopesRun.complete).contains SlopesEvent.closeXlsx :=
  c2_slopes_file_handles SlopesRun.complete

/-- C9: the widened window of `get_flood_waves_yearly` is
`[year-01-01, (year+1)-02-01]` for the first year 1876,
`[(year-1)-11-30, year-12-31]` for the last year 2019, and
`[(year-1)-11-30, (year+1)-02-01]` for every other year. -/
theorem c9_window_bounds :
    flood_wave_window 1876 = ("1876-01-01", "1877-02-01") ∧
    flood_wave_window 2019 = ("2018-11-30", "2019-12-31") ∧
    ∀ year : ℕ, year ≠ 1876 → year ≠ 2019 →
      flood_wave_window year =
        (toString (year - 1) ++ "-11-30", toString (year + 1) ++ "-02-01") :=
  ⟨by rfl, by rfl, fun year h1 h2 => by simp [flood_wave_window, h1, h2]⟩

/-- C9 witness: the window of the middle year 2000. -/
theorem c9_window_bounds_witness :
    flood_wave_window 2000 = ("1999-11-30", "2001-02-01") :=
  (c9_window_bounds.2.2 2000 (by decide) (by decide)).trans (by rfl)

/-- C5: for every window length `L` with `1876 + L ≤ 2019`,
`yearly_mean_moving_average` returns `2020 - (1876 + L)` values in order of
ending year, the `j`-th being the `np.mean` of the edge velocities of the
window from `(1876 + j)-01-01` to `(1876 + L + j)-12-31` (ending year
`1876 + L + j`, start year `i - L`). -/
theorem c5_moving_average :
    ∀ (velOf : String → String → List ℚ) (length : ℕ), 1876 + length ≤ 2019 →
      (yearly_mean_moving_average velOf length).length = 2020 - (1876 + length) ∧
      ∀ j, j < 2020 - (1876 + length) →
        (yearly_mean_moving_average velOf length).getD j 0 =
          npMean (velOf (toString (1876 + j) ++ "-01-01")
            (toString (1876 + length + j) ++ "-12-31")) := by
  intro velOf length h
  have hlen : (yearly_mean_moving_average velOf length).length = 2020 - (1876 + length) := by
    simp [yearly_mean_moving_average]
  refine ⟨hlen, ?_⟩
  intro j hj
  have hlt : j < (yearly_mean_moving_average velOf length).length := by
    rw [hlen]; exact hj
  rw [List.getD_eq_getElem _ _ hlt]
  simp only [yearly_mean_moving_average, List.getElem_map, List.getElem_range', one_mul]
  have e1 : 1876 + length + j - length = 1876 + j := by omega
  rw [e1]

/-- C5 witness: the longest admissible window, `L = 143`, yields one mean. -/
theorem c5_moving_average_witness :
    (yearly_mean_moving_average velOfSample 143).length = 2020 - (1876 + 143) ∧
    (yearly_mean_moving_average velOfSample 143).getD 0 0 =
      npMean (velOfSample (toString (1876 + 0) ++ "-01-01")
        (toString (1876 + 143 + 0) ++ "-12-31")) :=
  ⟨(c5_moving_average velOfSample 143 (by decide)).1,
   (c5_moving_average velOfSample 143 (by decide)).2 0 (by decide)⟩

/-- C6: for every period length at least 1, `red_ratio` computes each row as
exactly `red count / total node count` over the period's concatenated color
lists (first conjunct, success case), aborts with the division-by-zero
failure as soon as some period's classification is empty rather than
substituting a value (second conjunct), and on the sample classification with
ten nodes of which three are red the single 144-year period's ratio is
exactly 0.3 (last conjunct). -/
theorem c6_red_ratio_exact :
    (∀ (gauges : List String) (colorsOf : String → String → String → List String)
      (period : ℕ), 1 ≤ period →
      ((∀ y ∈ periodStarts period,
          (allColors gauges colorsOf (periodStartDate y) (periodEndDate y period)).length ≠ 0) →
        red_ratio_rows gauges colorsOf period =
          some ((periodStarts period).map (fun y =>
            (periodLabel y period,
             ((allColors gauges colorsOf (periodStartDate y)
                 (periodEndDate y period)).count "red" : ℚ) /
               (allColors gauges colorsOf (periodStartDate y)
                 (periodEndDate y period)).length)))) ∧
      ((∃ y ∈ periodStarts period,
          (allColors gauges colorsOf (periodStartDate y) (periodEndDate y period)).length = 0) →
        red_ratio_rows gauges colorsOf period = none)) ∧
    red_ratio_rows gaugesSample colorsSample 144 =
      some [("1876-01-01_2019-12-31", (0.3 : ℚ))] := by
  constructor
  · intro gauges colorsOf period _
    exact ⟨fun h => redRatioGo_some gauges colorsOf period _ h,
           fun h => redRatioGo_none gauges colorsOf period _ h⟩
  · have h := redRatioGo_some gaugesSample colorsSample 144 (periodStarts 144) (by decide)
    rw [red_ratio_rows, h, show periodStarts 144 = [1876] from by decide]
    simp only [List.map_cons, List.map_nil,
      show (allColors gaugesSample colorsSample (periodStartDate 1876)
        (periodEndDate 1876 144)).count "red" = 3 from by decide,
      show (allColors gaugesSample colorsSample (periodStartDate 1876)
        (periodEndDate 1876 144)).length = 10 from by decide,
      show periodLabel 1876 144 = "1876-01-01_2019-12-31" from by decide]
    norm_num

/-- C6 witness: a run over an empty gauge list has an empty classification in
the very first period and fails. -/
theorem c6_red_ratio_exact_witness :
    red_ratio_rows [] colorsSample 72 = none :=
  (c6_red_ratio_exact.1 [] colorsSample 72 (by decide)).2 ⟨1876, by decide, rfl⟩

/-- C10: for every period length at least 1, the complete periods iterated by
`red_ratio` are exactly the `144 / period` starts `1876 + k * period` in
chronological order; every table the function returns carries exactly one row
per complete period, labelled `start-01-01_end-12-31` in that order (hence
`144 / period` rows); and a period with an empty classification makes the
whole operation fail instead of being skipped. -/
theorem c10_red_ratio_rows :
    ∀ (gauges : List String) (colorsOf : String → String → String → List String)
      (period : ℕ), 1 ≤ period →
      periodStarts period = (List.range (144 / period)).map (fun k => 1876 + k * period) ∧
      (∀ rows, red_ratio_rows gauges colorsOf period = some rows →
        rows.map Prod.fst = (periodStarts period).map (fun y => periodLabel y period) ∧
        rows.length = 144 / period) ∧
      ((∃ y ∈ periodStarts period,
          (allColors gauges colorsOf (periodStartDate y) (periodEndDate y period)).length = 0) →
        red_ratio_rows gauges colorsOf period = none) := by
  intro gauges colorsOf period hp
  refine ⟨periodStarts_eq period hp, ?_, fun h => redRatioGo_none gauges colorsOf period _ h⟩
  intro rows hrows
  have hlab := redRatioGo_labels gauges colorsOf period _ rows hrows
  refine ⟨hlab, ?_⟩
  have h1 : rows.length = (rows.map Prod.fst).length := (List.length_map _ _).symm
  rw [h1, hlab, List.length_map, periodStarts_eq period hp, List.length_map,
    List.length_range]

/-- C10 witness: with period 5 the starts are the 28 years
`1876, 1881, ..., 2011`, and an empty classification aborts the run. -/
theorem c10_red_ratio_rows_witness :
    periodStarts 5 = (List.range (144 / 5)).map (fun k => 1876 + k * 5) ∧
    red_ratio_rows [] colorsEmpty 5 = none :=
  ⟨(c10_red_ratio_rows [] colorsEmpty 5 (by decide)).1,
   (c10_red_ratio_rows [] colorsEmpty 5 (by decide)).2.2 ⟨1876, by decide, rfl⟩⟩

/-- C7: every table `get_statistics` returns is the assembled `statTable`:
its columns carry exactly the nine headers, in order (year, component count,
low count, high count, min / max / mean / median velocity, and the
velocity-spread column, which the embedding stores as the square of the
population standard deviation); every column has exactly 144 entries, one per
year 1876..2019; and the year column lists 1876 + j at position j, so the
rows are in chronological order. -/
theorem c7_statistics_table :
    ∀ (gauges : List String) (compCountOf : String → String → ℕ)
      (colorsOf : String → String → String → List String)
      (velOf : String → String → List ℚ) (t : List (String × List ℚ)),
      get_statistics gauges compCountOf colorsOf velOf = some t →
      t = statTable gauges compCountOf colorsOf velOf ∧
      t.map Prod.fst = statColumnNames ∧
      statColumnNames.length = 9 ∧
      (∀ col ∈ t, col.2.length = 144) ∧
      (∀ j, j < 144 → (t.getD 0 ("", [])).2.getD j 0 = ((1876 + j : ℕ) : ℚ)) := by
  intro gauges compCountOf colorsOf velOf t ht
  have hts : t = statTable gauges compCountOf colorsOf velOf := by
    unfold get_statistics at ht
    split at ht
    · exact (Option.some.inj ht).symm
    · exact absurd ht (by simp)
  subst hts
  refine ⟨rfl, rfl, rfl, ?_, ?_⟩
  · intro col hcol
    simp only [statTable, List.mem_cons, List.not_mem_nil, or_false] at hcol
    rcases hcol with h | h | h | h | h | h | h | h | h <;> subst h <;>
      simp [statYears, lowCounts, highCounts]
  · intro j hj
    have hhead : (statTable gauges compCountOf colorsOf velOf).getD 0 ("", []) =
        ("Datum (ev)", statYears.map (Nat.cast : ℕ → ℚ)) := rfl
    rw [hhead]
    have hlen : j < (statYears.map (Nat.cast : ℕ → ℚ)).length := by
      have : (statYears.map (Nat.cast : ℕ → ℚ)).length = 144 := by simp [statYears]
      omega
    rw [List.getD_eq_getElem _ _ hlen]
    simp only [List.getElem_map, statYears, List.getElem_range', one_mul]

/-- C7 witness: a successful run (every year has a velocity) produces the
nine headers with 144 entries per column. -/
theorem c7_statistics_table_witness :
    (statTable gaugesSample compCountSample colorsSample velOneSample).map Prod.fst =
      statColumnNames ∧
    (∀ col ∈ statTable gaugesSample compCountSample colorsSample velOneSample,
      col.2.length = 144) :=
  ⟨(c7_statistics_table gaugesSample compCountSample colorsSample velOneSample _ rfl).2.1,
   (c7_statistics_table gaugesSample compCountSample colorsSample velOneSample _
     rfl).2.2.2.1⟩

/-- C8: in every row of the yearly statistics table, the low (yellow) count
plus the high (red) count is at most the total number of classified nodes of
that year (the `lowCounts` and `highCounts` lists below are exactly the data
of the table's `Kisviz (db)` and `Nagyviz (db)` columns). -/
theorem c8_low_high_bound :
    ∀ (gauges : List String) (colorsOf : String → String → String → List String) (j : ℕ),
      j < 144 →
      (lowCounts gauges colorsOf).getD j 0 + (highCounts gauges colorsOf).getD j 0 ≤
        (totalNodeCounts gauges colorsOf).getD j 0 := by
  intro gauges colorsOf j hj
  have h1 : j < (lowCounts gauges colorsOf).length := by
    have : (lowCounts gauges colorsOf).length = 144 := by simp [lowCounts, statYears]
    omega
  have h2 : j < (highCounts gauges colorsOf).length := by
    have : (highCounts gauges colorsOf).length = 144 := by simp [highCounts, statYears]
    omega
  have h3 : j < (totalNodeCounts gauges colorsOf).length := by
    have : (totalNodeCounts gauges colorsOf).length = 144 := by
      simp [totalNodeCounts, statYears]
    omega
  rw [List.getD_eq_getElem _ _ h1, List.getD_eq_getElem _ _ h2, List.getD_eq_getElem _ _ h3]
  simp only [lowCounts, highCounts, totalNodeCounts, List.getElem_map]
  exact count_yellow_red_le_length _

/-- C8 witness: the first row of the sample run. -/
theorem c8_low_high_bound_witness :
    (lowCounts gaugesSample colorsSample).getD 0 0 +
      (highCounts gaugesSample colorsSample).getD 0 0 ≤
      (totalNodeCounts gaugesSample colorsSample).getD 0 0 :=
  c8_low_high_bound gaugesSample colorsSample 0 (by decide)

/-- C3 (amended): for gauge lists of exactly 14 gauges — the only size the
hard-coded `np.zeros((144, 28))` grid and the `pd.DataFrame` shape check
admit — `low_high_by_gauge_yearly` returns the 144-row, 28-column
(`2 × 14`) grid indexed by the years 1876..2019, with the column labels
`gauge (low), gauge (high)` in input gauge order, and row `y - 1876` holding
at columns `2k - 2` and `2k - 1` the yellow and red counts of the `k`-th
gauge in year `y` (here zero-based: columns `2k` and `2k + 1` for the
`k`-th gauge, `k < 14`).  For any other gauge count the operation fails (see
the counterexample). -/
theorem c3_low_high_grid :
    ∀ (gauges : List String) (colorsOf : String → String → String → List String),
      gauges.length = 14 →
      low_high_by_gauge_yearly gauges colorsOf =
        some ⟨(List.range 144).map (lowHighYearRow gauges colorsOf),
              List.range' 1876 144, lowHighColNames gauges⟩ ∧
      ((List.range 144).map (lowHighYearRow gauges colorsOf)).length = 144 ∧
      (∀ row ∈ (List.range 144).map (lowHighYearRow gauges colorsOf), row.length = 28) ∧
      (∀ i k, i < 144 → k < gauges.length →
        (((List.range 144).map (lowHighYearRow gauges colorsOf)).getD i []).getD (2 * k) 0 =
          (colorsOf (gauges.getD k "") (periodStartDate (1876 + i))
            (yearEndDate (1876 + i))).count "yellow" ∧
        (((List.range 144).map (lowHighYearRow gauges colorsOf)).getD i []).getD
            (2 * k + 1) 0 =
          (colorsOf (gauges.getD k "") (periodStartDate (1876 + i))
            (yearEndDate (1876 + i))).count "red") := by
  intro gauges colorsOf hg
  have hzeros : ∀ i ∈ List.range 144,
      i < (List.replicate 144 (List.replicate 28 (0 : ℕ))).length ∧
      (List.replicate 144 (List.replicate 28 (0 : ℕ))).getD i [] = List.replicate 28 0 := by
    intro i hi
    have hi' : i < 144 := List.mem_range.mp hi
    exact ⟨by simpa using hi', getD_replicate_self 144 i _ [] hi'⟩
  obtain ⟨m', hm'eq, hm'len, hm'rows, _⟩ :=
    lowHighFillYears_eq gauges colorsOf hg (List.range 144)
      (List.replicate 144 (List.replicate 28 0)) hzeros (List.nodup_range 144)
  have hm'len144 : m'.length = 144 := by simpa using hm'len
  have hmap : m' = (List.range 144).map (lowHighYearRow gauges colorsOf) := by
    apply List.ext_getElem (by simpa using hm'len144)
    intro n h1 h2
    have hn : n < 144 := by omega
    have hL := List.getD_eq_getElem m' [] h1
    rw [← hL, hm'rows n (List.mem_range.mpr hn)]
    rw [List.getElem_map]
    congr 1
    exact (List.getElem_range _ (by simpa using hn)).symm
  have hgetDrow : ∀ i, i < 144 →
      ((List.range 144).map (lowHighYearRow gauges colorsOf)).getD i [] =
        lowHighYearRow gauges colorsOf i := by
    intro i hi
    have hlen : i < ((List.range 144).map (lowHighYearRow gauges colorsOf)).length := by
      simpa using hi
    rw [List.getD_eq_getElem _ [] hlen, List.getElem_map]
    congr 1
    exact List.getElem_range _ (by simpa using hi)
  refine ⟨?_, by simp, ?_, ?_⟩
  · have hcols : (lowHighColNames gauges).length = 28 := by rw [lowHighColNames_length, hg]
    unfold low_high_by_gauge_yearly
    simp only [hm'eq]
    rw [if_pos hcols, hmap]
  · intro row hrow
    obtain ⟨i, _, rfl⟩ := List.mem_map.mp hrow
    rw [lowHighYearRow_length, hg]
  · intro i k hi hk
    rw [hgetDrow i hi]
    exact lowHighYearRow_getD colorsOf i gauges k hk

/-- C3 witness: the sample run over fourteen gauges, with the yellow count of
the first gauge in the first year read back from cell `(0, 0)`. -/
theorem c3_low_high_grid_witness :
    low_high_by_gauge_yearly gauges14 colorsSample =
      some (LowHighFrame.mk ((List.range 144).map (lowHighYearRow gauges14 colorsSample))
        (List.range' 1876 144) (lowHighColNames gauges14)) ∧
    (((List.range 144).map (lowHighYearRow gauges14 colorsSample)).getD 0 []).getD 0 0 =
      (colorsSample (gauges14.getD 0 "") (periodStartDate (1876 + 0))
        (yearEndDate (1876 + 0))).count "yellow" :=
  ⟨(c3_low_high_grid gauges14 colorsSample rfl).1,
   ((c3_low_high_grid gauges14 colorsSample rfl).2.2.2 0 0 (by decide) (by decide)).1⟩

/-- C3 counterexample: with fifteen gauges the claim promises a 144-row,
30-column grid, but the source's fifteenth gauge iteration assigns column 28
of the hard-coded 28-column `np.zeros((144, 28))` matrix and raises
`IndexError`: no grid is returned at all (with fewer than 14 gauges the
`pd.DataFrame` shape check fails instead). -/
theorem c3_counterexample :
    gauges15.length = 15 ∧ low_high_by_gauge_yearly gauges15 colorsEmpty = none := by
  constructor
  · rfl
  · decide

/-- C4 (amended): for every vertex pair and period length at least 1,
the source iterates the non-overlapping periods `1876 + k * period`
(`k < 144 / period`, stopping once a period would pass 2019); provided every
period that has an in-range date pools at least one slope, a period with no
recorded date in range contributes no row while each period with data
contributes exactly one row of statistics over its pooled, flattened slopes
(first conjunct); and the pair whose only record is `[x, 5.0]` at date
1876-06-01, with period 1, yields exactly one row with
min = max = mean = median = 5 and zero spread (second conjunct; the last
field is the square of `np.std`).  Without the nonempty-pool proviso the
claim fails: an in-range date whose slope entry is an empty list makes
`np.min` raise, so no row at all is produced (see the counterexample). -/
theorem c4_slope_period_rows :
    (∀ (records : SlopeRecords) (period : ℕ), 1 ≤ period →
      (∀ y ∈ periodStarts period, allDatesOutside records y period = false →
        (periodSlopePool records y period).isEmpty = false) →
      get_slopes_rows records period =
        some ((((List.range (144 / period)).map (fun k => 1876 + k * period)).filter
            (fun y => !allDatesOutside records y period)).map
          (fun y => (periodLabel y period, npStats (periodSlopePool records y period))))) ∧
    (∀ x : ℚ, get_slopes_rows [("1876-06-01", x, SlopeVal.scalar 5)] 1 =
      some [("1876-01-01_1876-12-31", ⟨5, 5, 5, 5, 0⟩)]) := by
  constructor
  · intro records period hp hpool
    rw [get_slopes_rows, slopeRowsGo_eq records period _ hpool, periodStarts_eq period hp]
  · intro x
    have hpool : ∀ y ∈ periodStarts 1,
        allDatesOutside [("1876-06-01", x, SlopeVal.scalar 5)] y 1 = false →
        (periodSlopePool [("1876-06-01", x, SlopeVal.scalar 5)] y 1).isEmpty = false := by
      intro y _ hout
      simp only [allDatesOutside, List.map_cons, List.map_nil, List.all_cons, List.all_nil,
        Bool.and_true, Bool.or_eq_false_iff] at hout
      obtain ⟨h1, h2⟩ := hout
      simp [periodSlopePool, strLeB, h1, h2, flattenSlope]
    rw [get_slopes_rows, slopeRowsGo_eq _ _ _ hpool]
    have hfuneq : (fun y => !allDatesOutside [("1876-06-01", x, SlopeVal.scalar 5)] y 1) =
        (fun y => !allDatesOutside [("1876-06-01", 0, SlopeVal.scalar 5)] y 1) := rfl
    rw [hfuneq, show (periodStarts 1).filter
        (fun y => !allDatesOutside [("1876-06-01", 0, SlopeVal.scalar 5)] y 1) = [1876]
      from by decide]
    simp only [List.map_cons, List.map_nil]
    rw [show periodLabel 1876 1 = "1876-01-01_1876-12-31" from by decide,
      show periodSlopePool [("1876-06-01", x, SlopeVal.scalar 5)] 1876 1 = [5] from rfl]
    norm_num [npStats, npMin, npMax, npMean, npMedian, npVar, List.insertionSort,
      List.orderedInsert]

/-- C4 witness: a pair with no records at all produces a sheet with no rows
(every period is skipped, none aborts). -/
theorem c4_slope_period_rows_witness : get_slopes_rows [] 1 = some [] :=
  (c4_slope_period_rows.1 [] 1 (by decide) (by decide)).trans (by decide)

/-- C4 counterexample: the date 1876-06-01 lies inside the first 1-year
period (first conjunct), so the claim promises exactly one row for that
period, yet with the slope entry being an empty list the pooled slopes are
empty, `np.min` raises, and the whole invocation produces nothing. -/
theorem c4_counterexample :
    (strLeB (periodStartDate 1876) "1876-06-01" &&
      strLeB "1876-06-01" (periodEndDate 1876 1)) = true ∧
    get_slopes_rows [("1876-06-01", 0, SlopeVal.vals [])] 1 = none := by
  constructor
  · decide
  · decide
